import Mathlib

/-!
Verification of the dependency-injection container examples of the
`ts-dependency-injection` repository against its design specification.

The development has three layers:

1. An embedding of the hand-rolled `memoize` helper (`src/common.ts`),
   modelling the closure state of a memoized resolver explicitly and
   allowing the wrapped factory to fail (a thrown exception becomes
   `Except.error`).

2. An embedding of the "DIY / no-framework" wiring of
   `src/diy-roll-your-own/factory-inside-class.ts`: the `dependencies`
   object with its memoized `getDb`, and the `Repository` / `Service`
   classes with their memoized static `getInstance` resolvers.  The
   module-level mutable state (the memoization caches) is made explicit
   in a `ModuleState` record, and object identity (JavaScript reference
   equality) is modelled by tagging every constructed object with a
   fresh allocation number drawn from `ModuleState.nextRef`.

3. A generic scope/registry/resolver container following the resolution
   algorithm of the specification (token lookup through a chain of
   registries, per-scope instance cache, cycle detection via a working
   set, child scopes and overrides).  The repository itself delegates
   this machinery to third-party libraries whose sources are not part
   of the repository, so this layer is modelled from the spec.
-/

/-! ## Rows and database objects (`src/common.ts`) -/

/-- A row as produced by the placeholder database: `{id: ..., name: ...}`. -/
structure Row where
  id : Int
  name : String
deriving DecidableEq

/-- A database object `{query(queryString) {...}}`.  Every database object in
the repository (the real placeholder and every mock) ignores its query string
and returns a fixed list of rows, so the object is modelled by that list
together with an allocation tag `ref` standing for JavaScript object
identity. -/
structure Database where
  ref : Nat
  rows : List Row
deriving DecidableEq

/-- The `query` method of a database object: returns its fixed row list,
ignoring the query string (as both the real placeholder DB and the mocks
in the repository do). -/
def Database.query (d : Database) (_queryString : String) : List Row :=
  d.rows

/-- The rows returned by the placeholder database of `common.ts`:
`[{id: 1, name: 'test'}]`. -/
def realRows : List Row := [{ id := 1, name := "test" }]

/-- `getPlaceholderForRealDB` from `common.ts`: allocates a fresh database
object whose `query` returns `[{id: 1, name: 'test'}]`.  The allocation tag
is supplied by the caller's state. -/
def getPlaceholderForRealDB (ref : Nat) : Database :=
  { ref := ref, rows := realRows }

/-! ## The hand-rolled `memoize` (`src/common.ts`)

```ts
export function memoize<T>(factory: () => T): () => T {
    let cached: T
    return () => {
        if (cached === undefined) cached = factory()
        return cached
    }
}
```

The closure state is the variable `cached` (where `none` stands for the
JavaScript value `undefined`) together with a count of how many times the
factory body has actually been run.  The wrapped factory is modelled as a
function of the invocation index so that distinct invocations may yield
distinct results, return `undefined` (`Option.none`), or throw
(`Except.error`). -/

/-- The state of the closure produced by `memoize(factory)`: the captured
variable `cached` (`none` = `undefined`) and the number of factory
invocations so far. -/
structure MState (V : Type) where
  cached : Option V
  calls : Nat
deriving DecidableEq

/-- The closure state immediately after `memoize(factory)` returns: `cached`
is still `undefined` and the factory has never been invoked. -/
def memoize (V : Type) : MState V :=
  { cached := none, calls := 0 }

/-- One call of the memoized closure.  Mirrors the body
`if (cached === undefined) cached = factory(); return cached`:
if a cached value exists it is returned untouched; otherwise the factory is
invoked — if it throws, the assignment to `cached` never happens and the
exception propagates; if it returns (possibly `undefined`), the result is
assigned to `cached` and returned. -/
def memoCall {V E : Type} (f : Nat → Except E (Option V)) (s : MState V) :
    Except E (Option V) × MState V :=
  match s.cached with
  | some v => (.ok (some v), s)
  | none =>
    match f s.calls with
    | .error e => (.error e, { cached := none, calls := s.calls + 1 })
    | .ok r => (.ok r, { cached := r, calls := s.calls + 1 })

/-- The closure state after `n` calls of the memoized closure. -/
def memoIter {V E : Type} (f : Nat → Except E (Option V)) : Nat → MState V
  | 0 => memoize V
  | n + 1 => (memoCall f (memoIter f n)).2

/-! ## The DIY wiring (`src/diy-roll-your-own/factory-inside-class.ts`)

```ts
export const dependencies = {
    getDb: memoize(() => getPlaceholderForRealDB()),
}

export class Repository {
    static readonly getInstance = memoize(() => new Repository())
    constructor(private db = dependencies.getDb()) {}
    get(id: number): any {
        return this.db.query(`SELECT * FROM tableA WHERE id = ${id}}`)[0]
    }
}

export class Service {
    static readonly getInstance = memoize(() => new Service())
    constructor(private repository = Repository.getInstance()) {}
    get(id: number): any {
        return this.repository.get(id)
    }
}
```

The three memoization caches live in module-level closures; they are
gathered into one explicit `ModuleState` record.  None of the three
factories can return `undefined` (each returns a freshly constructed
object), so the `cached === undefined` test of `memoize` coincides with
"no instance constructed yet", and the caches are represented directly as
`Option` fields.  Construction counters record how many times each factory
body has run, and `nextRef` supplies fresh allocation tags standing for
JavaScript object identity. -/

/-- A `Repository` instance: its allocation tag and the database it closed
over. -/
structure Repository where
  ref : Nat
  db : Database
deriving DecidableEq

/-- A `Service` instance: its allocation tag and the repository it closed
over. -/
structure Service where
  ref : Nat
  repository : Repository
deriving DecidableEq

/-- The module-level mutable state of `factory-inside-class.ts`: the three
memoization caches (`none` = `undefined`, i.e. not yet constructed), the
number of times each factory body has run, and the allocation counter. -/
structure ModuleState where
  dbCache : Option Database
  repoCache : Option Repository
  svcCache : Option Service
  dbCalls : Nat
  repoCalls : Nat
  svcCalls : Nat
  nextRef : Nat
deriving DecidableEq

/-- The module state right after the module of `factory-inside-class.ts` is
loaded: all three memoized resolvers exist but no factory has run. -/
def initialState : ModuleState :=
  { dbCache := none, repoCache := none, svcCache := none,
    dbCalls := 0, repoCalls := 0, svcCalls := 0, nextRef := 0 }

/-- `dependencies.getDb()`: the memoized
`() => getPlaceholderForRealDB()`. -/
def dependencies.getDb (s : ModuleState) : Database × ModuleState :=
  match s.dbCache with
  | some d => (d, s)
  | none =>
    let d := getPlaceholderForRealDB s.nextRef
    (d, { s with dbCache := some d, dbCalls := s.dbCalls + 1,
                 nextRef := s.nextRef + 1 })

/-- `Repository.getInstance()`: the memoized `() => new Repository()`, whose
constructor default argument resolves `dependencies.getDb()`. -/
def Repository.getInstance (s : ModuleState) : Repository × ModuleState :=
  match s.repoCache with
  | some r => (r, s)
  | none =>
    let p := dependencies.getDb s
    let r : Repository := { ref := p.2.nextRef, db := p.1 }
    (r, { p.2 with repoCache := some r, repoCalls := p.2.repoCalls + 1,
                   nextRef := p.2.nextRef + 1 })

/-- `Service.getInstance()`: the memoized `() => new Service()`, whose
constructor default argument resolves `Repository.getInstance()`. -/
def Service.getInstance (s : ModuleState) : Service × ModuleState :=
  match s.svcCache with
  | some v => (v, s)
  | none =>
    let p := Repository.getInstance s
    let v : Service := { ref := p.2.nextRef, repository := p.1 }
    (v, { p.2 with svcCache := some v, svcCalls := p.2.svcCalls + 1,
                   nextRef := p.2.nextRef + 1 })

/-- The query string built by `Repository.get`:
`` `SELECT * FROM tableA WHERE id = ${id}}` `` (the source template carries a
stray closing brace). -/
def sqlString (id : Int) : String :=
  "SELECT * FROM tableA WHERE id = " ++ toString id ++ "\x7d"

/-- `Repository.get(id)`: `this.db.query(...)[0]`.  JavaScript indexing past
the end of an array yields `undefined`, so `[0]` is the total `List.head?`. -/
def Repository.get (r : Repository) (id : Int) : Option Row :=
  (r.db.query (sqlString id)).head?

/-- `Service.get(id)`: delegates to `this.repository.get(id)`. -/
def Service.get (v : Service) (id : Int) : Option Row :=
  v.repository.get id

/-- The resolution entry points of the DIY module, for reasoning about
arbitrary interleavings of resolutions. -/
inductive DIYOp
  | opGetDb
  | opGetRepository
  | opGetService
deriving DecidableEq

/-- Run one resolution against the module state. -/
def stepOp (s : ModuleState) : DIYOp → ModuleState
  | .opGetDb => (dependencies.getDb s).2
  | .opGetRepository => (Repository.getInstance s).2
  | .opGetService => (Service.getInstance s).2

/-- Run a sequence of resolutions against the module state. -/
def runOps (s : ModuleState) (ops : List DIYOp) : ModuleState :=
  ops.foldl stepOp s

/-! ## Invariant: a memoization cache is filled exactly when its factory has
run once -/

/-- 0 for an empty cache, 1 for a filled one. -/
def cacheFlag {α : Type} : Option α → Nat
  | none => 0
  | some _ => 1

/-- Each factory body of the DIY module has run exactly as many times as its
cache is filled: never while the cache is empty, exactly once after. -/
def ConstructionInv (s : ModuleState) : Prop :=
  s.dbCalls = cacheFlag s.dbCache ∧ s.repoCalls = cacheFlag s.repoCache ∧
    s.svcCalls = cacheFlag s.svcCache

lemma constructionInv_getDb {s : ModuleState} (h : ConstructionInv s) :
    ConstructionInv (dependencies.getDb s).2 := by
  cases hd : s.dbCache <;>
    simp_all [ConstructionInv, dependencies.getDb, cacheFlag]

lemma constructionInv_getRepository {s : ModuleState} (h : ConstructionInv s) :
    ConstructionInv (Repository.getInstance s).2 := by
  cases hr : s.repoCache <;> cases hd : s.dbCache <;>
    simp_all [ConstructionInv, Repository.getInstance, dependencies.getDb,
      cacheFlag]

lemma constructionInv_getService {s : ModuleState} (h : ConstructionInv s) :
    ConstructionInv (Service.getInstance s).2 := by
  cases hv : s.svcCache <;> cases hr : s.repoCache <;> cases hd : s.dbCache <;>
    simp_all [ConstructionInv, Service.getInstance, Repository.getInstance,
      dependencies.getDb, cacheFlag]

lemma constructionInv_stepOp {s : ModuleState} (h : ConstructionInv s)
    (op : DIYOp) : ConstructionInv (stepOp s op) := by
  cases op with
  | opGetDb => exact constructionInv_getDb h
  | opGetRepository => exact constructionInv_getRepository h
  | opGetService => exact constructionInv_getService h

lemma constructionInv_runOps {s : ModuleState} (h : ConstructionInv s)
    (ops : List DIYOp) : ConstructionInv (runOps s ops) := by
  induction ops generalizing s with
  | nil => exact h
  | cons op rest ih => exact ih (constructionInv_stepOp h op)

lemma constructionInv_initial : ConstructionInv initialState := by
  simp [ConstructionInv, initialState, cacheFlag]

lemma cacheFlag_le_one {α : Type} (o : Option α) : cacheFlag o ≤ 1 := by
  cases o <;> simp [cacheFlag]

/-- C1 — Singleton identity: for each memoized resolver of the DIY module
(`dependencies.getDb`, `Repository.getInstance`, `Service.getInstance`),
resolving twice from any module state returns the identical instance and
leaves the state untouched by the second resolution; and starting from the
freshly loaded module, any sequence of resolutions runs each factory body at
most once, so at most one instance per token is ever constructed. -/
theorem singleton_identity (s : ModuleState) (ops : List DIYOp) :
    dependencies.getDb (dependencies.getDb s).2 = dependencies.getDb s ∧
    Repository.getInstance (Repository.getInstance s).2 =
      Repository.getInstance s ∧
    Service.getInstance (Service.getInstance s).2 = Service.getInstance s ∧
    (runOps initialState ops).dbCalls ≤ 1 ∧
    (runOps initialState ops).repoCalls ≤ 1 ∧
    (runOps initialState ops).svcCalls ≤ 1 := by
  have hinv : ConstructionInv (runOps initialState ops) :=
    constructionInv_runOps constructionInv_initial ops
  refine ⟨?_, ?_, ?_, ?_, ?_, ?_⟩
  · cases h : s.dbCache <;> simp [dependencies.getDb, h]
  · cases h : s.repoCache <;> simp [Repository.getInstance, h]
  · cases h : s.svcCache <;> simp [Service.getInstance, h]
  · rw [hinv.1]; exact cacheFlag_le_one _
  · rw [hinv.2.1]; exact cacheFlag_le_one _
  · rw [hinv.2.2]; exact cacheFlag_le_one _

/-- C3 — Concrete wiring, real path: resolving `Service` from the freshly
loaded DIY module (which transitively constructs the real `Repository` and
placeholder `Database`) and calling `get(1)` returns `{id: 1, name: 'test'}`;
the directly resolved `Repository` agrees. -/
theorem real_path_scenario :
    (Service.getInstance initialState).1.get 1 =
      some { id := 1, name := "test" } ∧
    (Repository.getInstance initialState).1.get 1 =
      some { id := 1, name := "test" } := by
  exact ⟨rfl, rfl⟩

/-- C6 — Failed resolutions are not cached: if the factory of an uncached
memoized resolver throws, the exception is propagated unchanged, the cache
still holds `undefined` afterwards, and the next call re-invokes the factory
and succeeds when the factory now succeeds. -/
theorem failed_resolution_not_cached (V E : Type)
    (f : Nat → Except E (Option V)) (s : MState V) (e : E) (r : Option V)
    (hun : s.cached = none) (herr : f s.calls = .error e)
    (hok : f (s.calls + 1) = .ok r) :
    memoCall f s = (.error e, { cached := none, calls := s.calls + 1 }) ∧
    (memoCall f s).2.cached = none ∧
    memoCall f (memoCall f s).2 =
      (.ok r, { cached := r, calls := s.calls + 2 }) := by
  refine ⟨?_, ?_, ?_⟩ <;> simp [memoCall, hun, herr, hok]

/-- A factory that throws on its first invocation and succeeds on all later
ones, used to witness `failed_resolution_not_cached`. -/
def failingThenOk : Nat → Except Nat (Option Nat) :=
  fun k => if k = 0 then .error 7 else .ok (some 3)

/-- Witness for C6 at the concrete factory `failingThenOk` started from a
fresh memoized resolver. -/
theorem failed_resolution_not_cached_witness :
    memoCall failingThenOk (memoize Nat) =
      (.error 7, { cached := none, calls := 1 }) ∧
    (memoCall failingThenOk (memoize Nat)).2.cached = none ∧
    memoCall failingThenOk (memoCall failingThenOk (memoize Nat)).2 =
      (.ok (some 3), { cached := some 3, calls := 2 }) :=
  failed_resolution_not_cached Nat Nat failingThenOk (memoize Nat) 7 (some 3)
    rfl rfl rfl

/-- C7 — Registration is lazy and effect-free: creating a memoized resolver
with `memoize(factory)` never invokes the factory (zero invocations, empty
cache), the freshly loaded DIY module has constructed nothing, and
construction happens exactly on the first resolution. -/
theorem registration_is_lazy (V E : Type) (f : Nat → Except E (Option V)) :
    (memoize V).calls = 0 ∧ (memoize V).cached = none ∧
    initialState.dbCalls = 0 ∧ initialState.repoCalls = 0 ∧
    initialState.svcCalls = 0 ∧
    initialState.dbCache = none ∧ initialState.repoCache = none ∧
    initialState.svcCache = none ∧
    (memoCall f (memoize V)).2.calls = 1 ∧
    (dependencies.getDb initialState).2.dbCalls = 1 := by
  refine ⟨rfl, rfl, rfl, rfl, rfl, rfl, rfl, rfl, ?_, rfl⟩
  cases h : f 0 <;> simp [memoCall, memoize, h]

/-- C9 — The `undefined` edge of the hand-rolled `memoize`: a factory that
always returns `undefined` is re-invoked on every call (nothing is ever
cached), while a factory whose results are never `undefined` is invoked at
most once across any number of calls. -/
theorem memoize_undefined_edge (V E : Type) (f : Nat → Except E (Option V))
    (n : Nat) :
    ((∀ k, f k = .ok none) →
      (memoIter f n).calls = n ∧ (memoIter f n).cached = none) ∧
    ((∀ k, ∃ v, f k = .ok (some v)) → (memoIter f n).calls ≤ 1) := by
  constructor
  · intro h
    induction n with
    | zero => simp [memoIter, memoize]
    | succ n ih =>
      obtain ⟨hc, hn⟩ := ih
      simp [memoIter, memoCall, hn, hc, h n]
  · intro h
    suffices hstrong : (memoIter f n).calls ≤ 1 ∧
        ((memoIter f n).cached = none → (memoIter f n).calls = 0) from
      hstrong.1
    induction n with
    | zero => simp [memoIter, memoize]
    | succ n ih =>
      obtain ⟨h1, h2⟩ := ih
      cases hc : (memoIter f n).cached with
      | some v => simp [memoIter, memoCall, hc, h1]
      | none =>
        have h0 := h2 hc
        obtain ⟨v, hv⟩ := h (memoIter f n).calls
        rw [h0] at hv
        simp [memoIter, memoCall, hc, h0, hv]

/-- Witness for C9: a constantly-`undefined` factory has run 3 times after 3
calls, while a factory returning `5` has run at most once after 3 calls. -/
theorem memoize_undefined_edge_witness :
    (memoIter (fun _ => (.ok none : Except Nat (Option Nat))) 3).calls = 3 ∧
    (memoIter (fun _ => (.ok (some 5) : Except Nat (Option Nat))) 3).calls
      ≤ 1 :=
  ⟨((memoize_undefined_edge Nat Nat (fun _ => .ok none) 3).1
      (fun _ => rfl)).1,
   (memoize_undefined_edge Nat Nat (fun _ => .ok (some 5)) 3).2
      (fun _ => ⟨5, rfl⟩)⟩

/-- C10 — Empty-result behaviour: for a repository whose database yields no
rows, `Repository.get` (and the delegating `Service.get`) returns no value
rather than failing — `[0]` on an empty query result is the total `head?` —
and in general `get` returns a value exactly when the query result holds a
row. -/
theorem empty_result_behaviour (r : Repository) (v : Service) (id : Int) :
    (r.db.rows = [] → r.get id = none) ∧
    (v.repository.db.rows = [] → v.get id = none) ∧
    ((r.get id).isSome ↔ r.db.query (sqlString id) ≠ []) := by
  refine ⟨?_, ?_, ?_⟩
  · intro h; simp [Repository.get, Database.query, h]
  · intro h; simp [Service.get, Repository.get, Database.query, h]
  · cases hr : r.db.rows <;> simp [Repository.get, Database.query, hr]

/-- A database with an empty result set, and a repository and service wired
to it, witnessing `empty_result_behaviour`. -/
def emptyDb : Database := { ref := 0, rows := [] }

/-- A repository over the empty database. -/
def emptyRepo : Repository := { ref := 1, db := emptyDb }

/-- A service over `emptyRepo`. -/
def emptySvc : Service := { ref := 2, repository := emptyRepo }

/-- Witness for C10 at the empty database. -/
theorem empty_result_behaviour_witness :
    Repository.get emptyRepo 1 = none ∧ Service.get emptySvc 1 = none :=
  ⟨(empty_result_behaviour emptyRepo emptySvc 1).1 rfl,
   (empty_result_behaviour emptyRepo emptySvc 1).2.1 rfl⟩

/-! ## The generalized container (spec §3–§4)

The repository's child-scope / override / cycle-detection behaviour is
exercised only through third-party containers (tsyringe, InversifyJS,
typed-inject, NestJS) whose implementations are not part of the repository
sources, so this layer is modelled from the specification's resolution
algorithm. -/

/-- Modelled from the spec: the lifecycle policy of a registration (§3);
the repository sources exercise only the singleton policy, the transient
policy is the spec's "return without caching" branch.  (The spec's "scoped"
policy caches exactly like singleton and is subsumed by it here.) -/
inductive Lifecycle
  | singleton
  | transient
deriving DecidableEq

/-- Modelled from the spec: a registration `{token, strategy, lifecycle}`
(§3).  The strategy is represented by its declared dependency tokens and a
construction function from the resolved dependencies; a factory or constant
strategy is the case `deps = []`. -/
structure Registration (Tok V : Type) where
  deps : List Tok
  construct : List V → V
  lifecycle : Lifecycle

/-- Modelled from the spec: a pre-built constant value strategy, cached on
first resolution (§4.2 step 3). -/
def constReg {Tok V : Type} (m : V) : Registration Tok V :=
  { deps := [], construct := fun _ => m, lifecycle := .singleton }

/-- Modelled from the spec: a scope (§3) — its own registry first, then the
registries of its ancestors from nearest to farthest, together with its own
instance cache.  A scope reads ancestor registrations but only ever writes
its own cache. -/
structure Scope (Tok V : Type) where
  registries : List (List (Tok × Registration Tok V))
  cache : List (Tok × V)

/-- First value bound to a token in an association list. -/
def assocLookup {Tok V : Type} [DecidableEq Tok] :
    List (Tok × V) → Tok → Option V
  | [], _ => none
  | (k, v) :: rest, t => if t = k then some v else assocLookup rest t

/-- Modelled from the spec: `Registry.lookup` walking the registry chain
from the requesting scope to the farthest ancestor (§4.1, §4.2 step 2). -/
def regLookupChain {Tok V : Type} [DecidableEq Tok] :
    List (List (Tok × Registration Tok V)) → Tok →
      Option (Registration Tok V)
  | [], _ => none
  | reg :: rest, t =>
    match assocLookup reg t with
    | some r => some r
    | none => regLookupChain rest t

/-- Modelled from the spec: the terminal failures of a resolution (§7)
— `UnregisteredToken` and `CircularDependency` carrying the ordered cycle —
plus `outOfFuel`, an artifact of the explicit recursion bound of the
embedding (never reached when enough fuel is supplied). -/
inductive ResolveErr (Tok : Type)
  | unregisteredToken (t : Tok)
  | circularDependency (cycle : List Tok)
  | outOfFuel
deriving DecidableEq

/-- Modelled from the spec: the resolver (§4.2) applied to a list of tokens,
threading the originating scope's cache and carrying the working set `path`
of tokens currently under construction.  For each token: fail with the
ordered cycle if the token is already under construction; return a cache
hit untouched; otherwise look the registration up through the registry
chain, resolve its declared dependencies recursively through the same
originating scope, construct the instance from the resolved dependencies,
and cache it if the lifecycle requires it. -/
def resolveList {Tok V : Type} [DecidableEq Tok] (s : Scope Tok V) :
    Nat → List Tok → List (Tok × V) → List Tok →
      Except (ResolveErr Tok) (List V × List (Tok × V))
  | _, _, cache, [] => .ok ([], cache)
  | 0, _, _, _ :: _ => .error .outOfFuel
  | fuel + 1, path, cache, t :: ts =>
    let one : Except (ResolveErr Tok) (V × List (Tok × V)) :=
      if t ∈ path then .error (.circularDependency (path ++ [t]))
      else
        match assocLookup cache t with
        | some v => .ok (v, cache)
        | none =>
          match regLookupChain s.registries t with
          | none => .error (.unregisteredToken t)
          | some reg =>
            match resolveList s fuel (path ++ [t]) cache reg.deps with
            | .error e => .error e
            | .ok (vs, cache₁) =>
              let v := reg.construct vs
              match reg.lifecycle with
              | .singleton => .ok (v, (t, v) :: cache₁)
              | .transient => .ok (v, cache₁)
    match one with
    | .error e => .error e
    | .ok (v, cache₂) =>
      match resolveList s fuel path cache₂ ts with
      | .error e => .error e
      | .ok (vs, cache₃) => .ok (v :: vs, cache₃)

/-- Modelled from the spec: `resolve(token)`, the public entry point (§4.3),
starting from an empty working set and the scope's current cache and storing
the updated cache back into the scope.  (The `[]` result arm is unreachable:
`resolveList` returns one value per requested token.) -/
def resolve {Tok V : Type} [DecidableEq Tok] (fuel : Nat) (s : Scope Tok V)
    (t : Tok) : Except (ResolveErr Tok) (V × Scope Tok V) :=
  match resolveList s fuel [] s.cache [t] with
  | .error e => .error e
  | .ok (vs, cache₁) =>
    match vs with
    | v :: _ => .ok (v, { s with cache := cache₁ })
    | [] => .error .outOfFuel

/-- The instance a resolution yields, if it succeeds. -/
def resolveValue {Tok V : Type} [DecidableEq Tok] (fuel : Nat)
    (s : Scope Tok V) (t : Tok) : Option V :=
  match resolve fuel s t with
  | .ok (v, _) => some v
  | .error _ => none

/-- Modelled from the spec: `createChild()` (§4.3) — a new scope with an
empty cache whose registry chain defers to the parent's. -/
def Scope.createChild {Tok V : Type} (s : Scope Tok V) : Scope Tok V :=
  { registries := [] :: s.registries, cache := [] }

/-- Modelled from the spec: `override(token, strategy)` (§4.3) — registers a
replacement strategy in the current scope (shadowing any other registration
for the token) and invalidates any cached instance for the token in this
scope only. -/
def Scope.override {Tok V : Type} [DecidableEq Tok] (t : Tok)
    (reg : Registration Tok V) (s : Scope Tok V) : Scope Tok V :=
  { registries :=
      match s.registries with
      | [] => [[(t, reg)]]
      | r :: rest => ((t, reg) :: r) :: rest,
    cache := s.cache.filter (fun p => ¬ p.1 = t) }

/-! ## The concrete Database / Repository / Service graph in the container -/

/-- The three tokens of the repository's example graph. -/
inductive DITok
  | database
  | repository
  | service
deriving DecidableEq

/-- The instances of the example graph: a database object fixed by its row
list, a repository holding its database, and a service holding its
repository (mirroring the constructor fields of the source classes). -/
inductive DIVal
  | db (rows : List Row)
  | repo (dbV : DIVal)
  | svc (repoV : DIVal)
deriving DecidableEq

/-- The `query` method of a database value (non-database values have no
`query`). -/
def valQuery : DIVal → String → List Row
  | .db rows, _ => rows
  | _, _ => []

/-- The `get(id)` method: on a repository,
`this.db.query(\x60SELECT ...\x60)[0]`; on a service, delegation to its
repository; a bare database value has no `get`. -/
def valGet : DIVal → Int → Option Row
  | .repo d, id => (valQuery d (sqlString id)).head?
  | .svc r, id => valGet r id
  | .db _, _ => none

/-- The rows returned by the mocked database of the tests:
`[{id: 2, name: 'mocked'}]`. -/
def mockRows : List Row := [{ id := 2, name := "mocked" }]

/-- The root registrations of the example graph: `Database` as a singleton
factory for the placeholder DB, `Repository` depending on `Database`, and
`Service` depending on `Repository`, all singletons. -/
def rootRegistry : List (DITok × Registration DITok DIVal) :=
  [(.database,
    { deps := [], construct := fun _ => .db realRows,
      lifecycle := .singleton }),
   (.repository,
    { deps := [.database],
      construct := fun vs => .repo (vs.headD (.db [])),
      lifecycle := .singleton }),
   (.service,
    { deps := [.repository],
      construct := fun vs => .svc (vs.headD (.db [])),
      lifecycle := .singleton })]

/-- The root ("application") scope holding the example graph. -/
def rootDI : Scope DITok DIVal :=
  { registries := [rootRegistry], cache := [] }

/-- A child scope of `rootDI` whose `Database` token is overridden — before
any resolution — with the mocked database of the tests. -/
def childWithMock : Scope DITok DIVal :=
  Scope.override .database (constReg (.db mockRows))
    (Scope.createChild rootDI)

/-- C2 — Transitive override propagation: overriding `Database` in a child
scope with the stub whose query returns `[{id: 2, name: 'mocked'}]` (before
any resolution) and resolving `Service` from that child yields a service
whose `get(1)` is `{id: 2, name: 'mocked'}` — the override reaches the
dependency two levels down although the `Repository` and `Service`
registrations are untouched, as the unchanged real-path resolution from the
root shows. -/
theorem transitive_override_propagation :
    resolveValue 9 childWithMock DITok.service =
      some (.svc (.repo (.db mockRows))) ∧
    valGet (.svc (.repo (.db mockRows))) 1 =
      some { id := 2, name := "mocked" } ∧
    resolveValue 9 rootDI DITok.service =
      some (.svc (.repo (.db realRows))) ∧
    valGet (.svc (.repo (.db realRows))) 1 =
      some { id := 1, name := "test" } := by
  exact ⟨rfl, rfl, rfl, rfl⟩

/-- C4 — Override isolation: for any token resolvable from a root scope,
overriding it in a freshly derived child scope makes the child resolve the
replacement, while the root — whose registries and cache the override never
touches, as the registry-chain equation shows — still resolves the original
instance. -/
theorem override_isolation (Tok V : Type) [DecidableEq Tok]
    (R : Scope Tok V) (T : Tok) (m v : V) (fuel fuel' : Nat)
    (h : resolveValue fuel R T = some v) :
    resolveValue (fuel' + 1)
      (Scope.override T (constReg m) (Scope.createChild R)) T = some m ∧
    (Scope.override T (constReg m) (Scope.createChild R)).registries.tail =
      R.registries ∧
    resolveValue fuel R T = some v := by
  refine ⟨?_, rfl, h⟩
  simp [resolveValue, resolve, resolveList, Scope.override, Scope.createChild,
    assocLookup, regLookupChain, constReg]

/-- Witness for C4 at the example graph: the overridden child resolves the
mocked database, the root still resolves the placeholder database. -/
theorem override_isolation_witness :
    resolveValue 1
      (Scope.override DITok.database (constReg (DIVal.db mockRows))
        (Scope.createChild rootDI)) DITok.database =
      some (DIVal.db mockRows) ∧
    (Scope.override DITok.database (constReg (DIVal.db mockRows))
        (Scope.createChild rootDI)).registries.tail = rootDI.registries ∧
    resolveValue 9 rootDI DITok.database = some (DIVal.db realRows) :=
  override_isolation DITok DIVal rootDI DITok.database (DIVal.db mockRows)
    (DIVal.db realRows) 9 0 rfl

/-! ## Cycle detection -/

/-- Two tokens registered as mutually dependent. -/
inductive CycTok
  | x
  | y
deriving DecidableEq

/-- A registry where `X` depends on `Y` and `Y` depends on `X`. -/
def cycRegistry : List (CycTok × Registration CycTok Unit) :=
  [(.x, { deps := [.y], construct := fun _ => (), lifecycle := .singleton }),
   (.y, { deps := [.x], construct := fun _ => (), lifecycle := .singleton })]

/-- The scope holding the cyclic registrations. -/
def cycScope : Scope CycTok Unit :=
  { registries := [cycRegistry], cache := [] }

/-- C5 — Cycle detection: with `X` and `Y` registered as mutually dependent,
resolving either token fails with `CircularDependency` naming the ordered
cycle, for every sufficiently large recursion bound (so the recursion is
cut by the working set, not by the bound), and no recursion bound whatsoever
makes the resolution return an instance. -/
theorem cycle_detection (n m : Nat) :
    resolve (n + 3) cycScope CycTok.x =
      .error (.circularDependency [.x, .y, .x]) ∧
    resolve (n + 3) cycScope CycTok.y =
      .error (.circularDependency [.y, .x, .y]) ∧
    (∃ e, resolve m cycScope CycTok.x = .error e) ∧
    (∃ e, resolve m cycScope CycTok.y = .error e) := by
  refine ⟨rfl, rfl, ?_, ?_⟩
  · match m with
    | 0 => exact ⟨.outOfFuel, rfl⟩
    | 1 => exact ⟨.outOfFuel, rfl⟩
    | 2 => exact ⟨.outOfFuel, rfl⟩
    | k + 3 => exact ⟨.circularDependency [.x, .y, .x], rfl⟩
  · match m with
    | 0 => exact ⟨.outOfFuel, rfl⟩
    | 1 => exact ⟨.outOfFuel, rfl⟩
    | 2 => exact ⟨.outOfFuel, rfl⟩
    | k + 3 => exact ⟨.circularDependency [.y, .x, .y], rfl⟩
